import Mathlib


namespace Prisere


/-!
Verification of the Prisere insurance-renewal comparison frontend.

The development embeds the mock analysis API of
`src/frontend/src/mocks/handlers.ts` (job store, create / status / result /
list handlers and the delayed completion timer), the mock data of
`src/frontend/src/mocks/analysis-data.ts`, the Next.js stub routes for
status and result, and the client-side progress animation of
`src/frontend/src/app/analysis/[jobId]/page.tsx`.
-/

/-! ### Decimal printing of job counters

The mock API mints job identifiers with the template literal
`mock-job-${nextJobId++}`.  To reason about freshness of minted
identifiers we need that the decimal printer for `Nat` is injective. -/

/-- Decimal digit characters of a natural number, most significant digit
first, as produced by the runtime decimal printer. -/
def msdDigits (n : Nat) : List Char :=
  if _h : n < 10 then [Nat.digitChar n]
  else
    msdDigits (n / 10) ++ [Nat.digitChar (n % 10)]
termination_by n
decreasing_by exact Nat.div_lt_self (by omega) (by omega)


/-- Numeric value of a decimal digit character. -/
def digitVal (c : Char) : Nat := c.toNat - 48


/-- Value of a most-significant-first decimal digit string. -/
def charsVal (l : List Char) : Nat := l.foldl (fun a c => a * 10 + digitVal c) 0


/-- Job identifier minted for the `nextJobId` counter value, from the
template literal in the create handler. -/
def mkId (n : Nat) : String := "mock-job-" ++ toString n


/-! ### Data model

Shapes from `src/frontend/src/types/analysis.ts` and
`src/frontend/src/types/api.ts`.  TypeScript string unions (`status`,
`category`, `change_type`) are embedded as `String` with explicit
valid-value lists, since the stub route under test builds plain objects
outside those unions.  ISO timestamp strings are embedded as epoch
milliseconds (`Nat`), which is the value the source compares and sorts by
(`new Date(x).getTime()`). -/

/-- Valid values of the `AnalysisJob.status` union in `types/api.ts`. -/
def validJobStatuses : List String := ["processing", "completed", "failed"]


/-- Valid values of the `ChangeCategory` union in `types/analysis.ts`. -/
def validCategories : List String :=
  ["coverage_limit", "deductible", "exclusion", "premium", "terms_conditions", "other"]


/-- Valid values of the `ChangeType` union in `types/analysis.ts`. -/
def validChangeTypes : List String :=
  ["increased", "decreased", "modified", "added", "removed"]


/-- Analysis job record (`AnalysisJob` in `types/api.ts`). -/
structure AnalysisJob where
  job_id : String
  status : String
  created_at : Nat
  updated_at : Nat
  baseline_filename : String
  renewal_filename : String
  estimated_completion_time : Option Nat := none
  error_message : Option String := none
deriving DecidableEq, Repr


/-- Per-category change counts (`Record ChangeCategory number`). -/
structure CategoryCounts where
  coverage_limit : Nat
  deductible : Nat
  exclusion : Nat
  premium : Nat
  terms_conditions : Nat
  other : Nat
deriving DecidableEq, Repr


/-- Sum of all category counters of a summary breakdown. -/
def CategoryCounts.sum (c : CategoryCounts) : Nat :=
  c.coverage_limit + c.deductible + c.exclusion + c.premium + c.terms_conditions + c.other


/-- Source-page references of a change. -/
structure PageRefs where
  baseline : List Nat
  renewal : List Nat
deriving DecidableEq, Repr


/-- One detected policy change (`PolicyChange` in `types/analysis.ts`). -/
structure PolicyChange where
  id : String
  category : String
  change_type : String
  title : String
  description : String
  baseline_value : String
  renewal_value : String
  change_amount : Option String := none
  percentage_change : Option Rat := none
  confidence : Rat
  page_references : PageRefs
deriving DecidableEq, Repr


/-- Premium comparison block (`PremiumComparison`). -/
structure PremiumComparison where
  baseline_premium : Option Rat
  renewal_premium : Option Rat
  difference : Option Rat
  percentage_change : Option Rat
deriving DecidableEq, Repr


/-- One suggested action (`SuggestedAction`). -/
structure SuggestedAction where
  category : String
  action : String
  educational_context : String
deriving DecidableEq, Repr


/-- One educational insight (`EducationalInsight`). -/
structure EducationalInsight where
  change_type : String
  insight : String
deriving DecidableEq, Repr


/-- Result metadata block of `AnalysisResult`. -/
structure ResultMetadata where
  analysis_version : String
  model_version : String
  processing_time_seconds : Nat
  completed_at : String
deriving DecidableEq, Repr


/-- Result summary (`AnalysisSummary`). -/
structure AnalysisSummary where
  total_changes : Nat
  change_categories : CategoryCounts
deriving DecidableEq, Repr


/-- Full comparison result (`AnalysisResult` in `types/analysis.ts`). -/
structure AnalysisResult where
  job_id : String
  status : String
  summary : AnalysisSummary
  changes : List PolicyChange
  premium_comparison : PremiumComparison
  suggested_actions : List SuggestedAction
  educational_insights : List EducationalInsight
  metadata : ResultMetadata
deriving DecidableEq, Repr


/-- One polled job-status record (`JobStatus` in `types/analysis.ts`). -/
structure JobStatusRec where
  job_id : String
  status : String
  progress : Nat
  message : String
  updated_at : String
deriving DecidableEq, Repr


/-- One educational tip shown while the analysis page animates. -/
structure Tip where
  icon : String
  title : String
  content : String
deriving DecidableEq, Repr


/-! ### Mock data from `src/frontend/src/mocks/analysis-data.ts` -/

/-- Mock changes list (`mockPolicyChanges`). -/
def mockPolicyChanges : List PolicyChange :=
  [{ id := "change-1", category := "coverage_limit", change_type := "decreased",
     title := "General Liability Coverage Changed",
     description := "General liability coverage limit changed from $2M to $1M",
     baseline_value := "$2,000,000", renewal_value := "$1,000,000",
     change_amount := some "-$1,000,000", percentage_change := some (-50),
     confidence := 0.92, page_references := ⟨[12, 15], [11, 14]⟩ },
   { id := "change-2", category := "deductible", change_type := "increased",
     title := "Property Damage Deductible Changed",
     description := "Property damage deductible changed from $2,500 to $3,500",
     baseline_value := "$2,500", renewal_value := "$3,500",
     change_amount := some "+$1,000", percentage_change := some 40,
     confidence := 0.88, page_references := ⟨[8], [8]⟩ },
   { id := "change-3", category := "exclusion", change_type := "added",
     title := "Flood Coverage Exclusion Added",
     description := "New exclusion added for flood-related damages",
     baseline_value := "Included", renewal_value := "Excluded",
     confidence := 0.95, page_references := ⟨[23], [24, 25]⟩ },
   { id := "change-4", category := "premium", change_type := "increased",
     title := "Annual Premium Changed",
     description := "Annual premium changed from $15,000 to $16,500",
     baseline_value := "$15,000", renewal_value := "$16,500",
     change_amount := some "+$1,500", percentage_change := some 10,
     confidence := 0.99, page_references := ⟨[1], [1]⟩ }]


/-- Mock result returned by the result handler (`mockAnalysisResult`). -/
def mockAnalysisResult : AnalysisResult :=
  { job_id := "550e8400-e29b-41d4-a716-446655440000",
    status := "completed",
    summary := { total_changes := 4,
                 change_categories :=
                   { coverage_limit := 1, deductible := 1, exclusion := 1,
                     premium := 1, terms_conditions := 0, other := 0 } },
    changes := mockPolicyChanges,
    premium_comparison :=
      { baseline_premium := some 15000, renewal_premium := some 16500,
        difference := some 1500, percentage_change := some 10 },
    suggested_actions :=
      [{ category := "coverage_limit",
         action := "Review with broker why general liability coverage decreased from $2M to $1M",
         educational_context := "Lower liability limits mean less protection for lawsuits and claims" },
       { category := "deductible",
         action := "Consider asking about options to maintain the previous $2,500 deductible",
         educational_context := "Higher deductibles mean more out-of-pocket costs when filing claims" },
       { category := "exclusion",
         action := "Discuss flood coverage options with your broker",
         educational_context := "Exclusions remove coverage for specific risks - consider if separate flood insurance is needed" }],
    educational_insights :=
      [{ change_type := "coverage_limit_decrease",
         insight := "When coverage limits decrease, it means your maximum protection amount is lower" },
       { change_type := "deductible_increase",
         insight := "Increased deductibles reduce premiums but increase your costs when claiming" },
       { change_type := "exclusion_added",
         insight := "New exclusions mean certain risks are no longer covered by your policy" }],
    metadata :=
      { analysis_version := "1.0", model_version := "claude-3.5-sonnet",
        processing_time_seconds := 87, completed_at := "2024-01-01T10:01:27Z" } }


/-- Mock polled status sequence (`mockJobStatuses`). -/
def mockJobStatuses : List JobStatusRec :=
  [{ job_id := "550e8400-e29b-41d4-a716-446655440000", status := "processing",
     progress := 25, message := "Reading your current policy...",
     updated_at := "2024-01-01T10:00:30Z" },
   { job_id := "550e8400-e29b-41d4-a716-446655440000", status := "processing",
     progress := 50, message := "Analyzing coverage sections...",
     updated_at := "2024-01-01T10:00:45Z" },
   { job_id := "550e8400-e29b-41d4-a716-446655440000", status := "processing",
     progress := 75, message := "Comparing coverage changes...",
     updated_at := "2024-01-01T10:01:00Z" },
   { job_id := "550e8400-e29b-41d4-a716-446655440000", status := "completed",
     progress := 100, message := "Analysis complete!",
     updated_at := "2024-01-01T10:01:27Z" }]


/-- Educational tips rotated on the analysis page (`educationalTips`). -/
def educationalTips : List Tip :=
  [{ icon := "💡", title := "Understanding Deductibles",
     content := "Deductibles are what you pay out-of-pocket before insurance kicks in. Higher deductibles = lower premiums" },
   { icon := "🛡️", title := "Coverage Limits Explained",
     content := "Coverage limits are the maximum amount your insurer will pay for a claim. Always review if these amounts still match your business needs." },
   { icon := "📋", title := "Policy Exclusions",
     content := "Exclusions are specific situations or items your policy doesn\x27t cover. New exclusions mean you\x27ll need separate coverage for those risks." },
   { icon := "💰", title := "Premium Changes",
     content := "Premium changes often reflect changes in coverage or your business risk profile. Higher premiums don\x27t always mean better coverage." },
   { icon := "🏢", title := "General Liability Protection",
     content := "General liability protects your business from customer injury or property damage claims. Ensure limits match your business size and risk." }]


/-! ### Job store

The mock database `analysisJobs` is a JS object keyed by job id; JS
objects keep insertion order and assignment replaces an existing key in
place or appends a fresh one.  We embed it as an association list. -/

/-- First-match lookup in an association list (JS property read). -/
def alookup {α : Type} : List (String × α) → String → Option α
  | [], _ => none
  | (k, v) :: t, id => if k = id then some v else alookup t id


/-- JS property assignment: replace the first binding of the key in
place, or append a fresh binding at the end. -/
def aset {α : Type} : List (String × α) → String → α → List (String × α)
  | [], id, v => [(id, v)]
  | (k, x) :: t, id, v => if k = id then (k, v) :: t else (k, x) :: aset t id v


/-- Keys of an association list. -/
def akeys {α : Type} (l : List (String × α)) : List String := l.map Prod.fst


/-! ### Mock API state (`src/frontend/src/mocks/handlers.ts`) -/

/-- Sample mock upload bookkeeping entry (`mockS3Uploads`). -/
structure MockUpload where
  filename : String
  uploaded : Bool
deriving DecidableEq, Repr


/-- Local state of the analysis page component: the two `useState` cells
`currentStep` and `currentTip`. -/
structure PageState where
  currentStep : Nat
  currentTip : Nat
deriving DecidableEq, Repr


/-- Whole mock-system state: the job store, the `nextJobId` counter, the
pending `setTimeout` completion timers (job id and absolute fire time),
the mock S3 upload store, and the analysis page component state. -/
structure SysState where
  jobs : List (String × AnalysisJob)
  nextJobId : Nat
  timers : List (String × Nat)
  uploads : List (String × MockUpload)
  ui : PageState
deriving DecidableEq, Repr


/-- Sample job `demo-job-1` seeded at module load time `t0`. -/
def sampleJob1 (t0 : Nat) : AnalysisJob :=
  { job_id := "demo-job-1", status := "completed",
    created_at := t0 - 86400000, updated_at := t0 - 86400000,
    baseline_filename := "current-policy-2024.pdf",
    renewal_filename := "renewal-quote-2025.pdf" }


/-- Sample job `demo-job-2`. -/
def sampleJob2 (t0 : Nat) : AnalysisJob :=
  { job_id := "demo-job-2", status := "completed",
    created_at := t0 - 172800000, updated_at := t0 - 172800000,
    baseline_filename := "business-insurance-current.pdf",
    renewal_filename := "business-insurance-renewal.pdf" }


/-- Sample job `demo-job-3`. -/
def sampleJob3 (t0 : Nat) : AnalysisJob :=
  { job_id := "demo-job-3", status := "processing",
    created_at := t0 - 300000, updated_at := t0 - 300000,
    baseline_filename := "liability-policy-2024.pdf",
    renewal_filename := "liability-renewal-2025.pdf",
    estimated_completion_time := some (t0 + 60000) }


/-- Sample job `demo-job-4`. -/
def sampleJob4 (t0 : Nat) : AnalysisJob :=
  { job_id := "demo-job-4", status := "failed",
    created_at := t0 - 604800000, updated_at := t0 - 604800000,
    baseline_filename := "corrupted-file.pdf",
    renewal_filename := "renewal-file.pdf",
    error_message := some "Unable to parse baseline PDF file" }


/-- Identifiers of the seeded sample jobs. -/
def sampleIds : List String := ["demo-job-1", "demo-job-2", "demo-job-3", "demo-job-4"]


/-- Initial mock state: the four sample jobs, `nextJobId = 5`, no
timers, no uploads, page component at step 0 and tip 0. -/
def initState (t0 : Nat) : SysState :=
  { jobs := [("demo-job-1", sampleJob1 t0), ("demo-job-2", sampleJob2 t0),
             ("demo-job-3", sampleJob3 t0), ("demo-job-4", sampleJob4 t0)],
    nextJobId := 5, timers := [], uploads := [], ui := ⟨0, 0⟩ }


/-- HTTP-style error payload (status code and message body). -/
structure ApiError where
  status : Nat
  message : String
deriving DecidableEq, Repr


/-- Last `/`-segment of an S3 key with the `|| 'unknown.pdf'` fallback,
from `body.s3_key.split(..).pop()` in the create handler. -/
def lastSegment (s : String) : String :=
  match (s.splitOn "/").getLast? with
  | none => "unknown.pdf"
  | some t => if t = "" then "unknown.pdf" else t


/-- Delay in milliseconds before a created job is marked completed
(the `setTimeout(.., 15000)` in the create handler). -/
def CREATE_DELAY_MS : Nat := 15000


/-- Estimated completion offset used in the created job record. -/
def ESTIMATE_MS : Nat := 120000


/-- Job record built by the create handler for a fresh id. -/
def newJob (jobId b r : String) (now : Nat) : AnalysisJob :=
  { job_id := jobId, status := "processing", created_at := now, updated_at := now,
    baseline_filename := lastSegment b, renewal_filename := lastSegment r,
    estimated_completion_time := some (now + ESTIMATE_MS), error_message := none }


/-- The `POST /v1/analyses` handler: reject with 422 when either key is
empty, otherwise store a fresh `processing` job, bump the counter, and
register the 15-second completion timer. -/
def createAnalysis (s : SysState) (b r : String) (now : Nat) :
    Except ApiError AnalysisJob × SysState :=
  if b = "" ∨ r = "" then
    (Except.error ⟨422, "Both baseline_s3_key and renewal_s3_key are required"⟩, s)
  else
    let jobId := mkId s.nextJobId
    let job := newJob jobId b r now
    (Except.ok job,
     { s with jobs := aset s.jobs jobId job,
              nextJobId := s.nextJobId + 1,
              timers := s.timers ++ [(jobId, now + CREATE_DELAY_MS)] })


/-- Remove the first timer registered for a job id. -/
def removeTimer : List (String × Nat) → String → List (String × Nat)
  | [], _ => []
  | (k, t) :: rest, id => if k = id then rest else (k, t) :: removeTimer rest id


/-- Body of the completion `setTimeout` callback: if the job still
exists, overwrite it with status `completed` and a fresh `updated_at`. -/
def completeJob (jobs : List (String × AnalysisJob)) (jobId : String) (now : Nat) :
    List (String × AnalysisJob) :=
  match alookup jobs jobId with
  | none => jobs
  | some job => aset jobs jobId { job with status := "completed", updated_at := now }


/-- Fire a pending completion timer for `jobId` (a no-op when no such
timer is pending). -/
def fireTimer (s : SysState) (jobId : String) (now : Nat) : SysState :=
  if jobId ∈ akeys s.timers then
    { s with jobs := completeJob s.jobs jobId now,
             timers := removeTimer s.timers jobId }
  else s


/-- The `GET /v1/analyses/:jobId/status` handler. -/
def getStatus (s : SysState) (jobId : String) : Except ApiError AnalysisJob :=
  match alookup s.jobs jobId with
  | none => Except.error ⟨404, "Analysis job not found"⟩
  | some job => Except.ok job


/-- The `GET /v1/analyses/:jobId/result` handler. -/
def getResult (s : SysState) (jobId : String) : Except ApiError AnalysisResult :=
  match alookup s.jobs jobId with
  | none => Except.error ⟨404, "Analysis job not found"⟩
  | some job =>
    if job.status = "completed" then
      Except.ok { mockAnalysisResult with job_id := jobId }
    else
      Except.error ⟨400, "Analysis is not yet completed"⟩


/-- Insert a job into a list already sorted by `created_at` descending. -/
def insertDesc (j : AnalysisJob) : List AnalysisJob → List AnalysisJob
  | [] => [j]
  | h :: t => if j.created_at ≤ h.created_at then h :: insertDesc j t
              else j :: h :: t


/-- Sort jobs by `created_at` descending, embedding the comparator
`(a, b) => time(b.created_at) - time(a.created_at)` of the list handler. -/
def sortDesc : List AnalysisJob → List AnalysisJob
  | [] => []
  | h :: t => insertDesc h (sortDesc t)


/-- The `GET /v1/analyses` handler: all stored jobs, newest first. -/
def listAnalyses (s : SysState) : List AnalysisJob :=
  sortDesc (s.jobs.map Prod.snd)


/-- The `POST /v1/uploads/init` handler (S3-key minting part). -/
def uploadInit (s : SysState) (filename : String) (now : Nat) : String × SysState :=
  let key := "uploads/test_user_123/" ++ toString now ++ "/" ++ filename
  (key, { s with uploads := aset s.uploads key ⟨filename, false⟩ })


/-- The mock S3 upload handler: flag a previously minted key uploaded. -/
def s3Upload (s : SysState) (key : String) : SysState :=
  match alookup s.uploads key with
  | none => s
  | some u => { s with uploads := aset s.uploads key { u with uploaded := true } }


/-! ### Client-side progress animation
(`src/frontend/src/app/analysis/[jobId]/page.tsx`) -/

/-- One entry of the `processingSteps` table on the analysis page. -/
structure ProcessingStep where
  progress : Nat
  message : String
deriving DecidableEq, Repr


/-- The fixed `processingSteps` table. -/
def processingSteps : List ProcessingStep :=
  [⟨15, "Reading your current policy..."⟩, ⟨35, "Analyzing coverage sections..."⟩,
   ⟨50, "Reading your renewal policy..."⟩, ⟨75, "Comparing coverage changes..."⟩,
   ⟨90, "Generating your report..."⟩, ⟨100, "Complete!"⟩]


/-- The `setCurrentStep` updater run by the 3-second interval: advance
one step, saturating at the last index. -/
def stepAdvance (prev : Nat) : Nat :=
  if prev ≥ processingSteps.length - 1 then prev else prev + 1


/-- The `setCurrentTip` updater run by the 5-second interval. -/
def tipAdvance (prev : Nat) : Nat := (prev + 1) % educationalTips.length


/-! ### System step relation -/

/-- One observable interaction with the mock system. -/
inductive Event where
  | create (baselineKey renewalKey : String) (now : Nat)
  | fire (jobId : String) (now : Nat)
  | readStatus (jobId : String)
  | readResult (jobId : String)
  | readList
  | upInit (filename : String) (now : Nat)
  | upS3 (key : String)
  | uiStepTick
  | uiTipTick


/-- Effect of one event on the system state.  The three read handlers
are pure and leave the state untouched. -/
def step (s : SysState) : Event → SysState
  | .create b r now => (createAnalysis s b r now).2
  | .fire j now => fireTimer s j now
  | .readStatus _ => s
  | .readResult _ => s
  | .readList => s
  | .upInit f now => (uploadInit s f now).2
  | .upS3 k => s3Upload s k
  | .uiStepTick => { s with ui := { s.ui with currentStep := stepAdvance s.ui.currentStep } }
  | .uiTipTick => { s with ui := { s.ui with currentTip := tipAdvance s.ui.currentTip } }


/-- States reachable from some initial mock state. -/
inductive Reachable : SysState → Prop where
  | init (t0 : Nat) : Reachable (initState t0)
  | next {s : SysState} (e : Event) : Reachable s → Reachable (step s e)


/-! ### Next.js stub routes

The analysis result route (`app/api/v1/analysis/[jobId]/result`) builds a
hard-coded result object for every requested job id; the status route
(`app/api/v1/analysis/[jobId]/route.ts`) returns 401 when unauthenticated
and otherwise a hard-coded completed job for every requested job id.
Neither consults any job store. -/

/-- Change shape of the result-route mock (plain object, not typed by
`PolicyChange`). -/
structure P5Change where
  id : String
  category : String
  change_type : String
  title : String
  baseline_value : String
  renewal_value : String
  description : String
  impact : String
  explanation : String
deriving DecidableEq, Repr


/-- Category breakdown of the result-route mock. -/
structure P5Categories where
  coverage_limits : Nat
  deductibles : Nat
  exclusions : Nat
  premiums : Nat
deriving DecidableEq, Repr


/-- Suggested action of the result-route mock. -/
structure P5SuggestedAction where
  priority : String
  action : String
  reason : String
deriving DecidableEq, Repr


/-- Educational insight of the result-route mock. -/
structure P5Insight where
  topic : String
  insight : String
deriving DecidableEq, Repr


/-- Summary object of the result-route mock. -/
structure P5Summary where
  total_changes : Nat
deriving DecidableEq, Repr


/-- Result shape returned by the result route. -/
structure P5Result where
  job_id : String
  summary : P5Summary
  total_changes : Nat
  change_categories : P5Categories
  changes : List P5Change
  premium_comparison : PremiumComparison
  suggested_actions : List P5SuggestedAction
  educational_insights : List P5Insight
  confidence_score : Rat
deriving DecidableEq, Repr


/-- The `mockResult` object of the result route, for a requested id. -/
def p5MockResult (jobId : String) : P5Result :=
  { job_id := jobId,
    summary := { total_changes := 8 },
    total_changes := 8,
    change_categories :=
      { coverage_limits := 3, deductibles := 2, exclusions := 2, premiums := 1 },
    changes :=
      [{ id := "change_1", category := "coverage_limits", change_type := "decreased",
         title := "General Liability Limit",
         baseline_value := "$2,000,000", renewal_value := "$1,000,000",
         description := "Your general liability coverage limit has been reduced by 50%",
         impact := "high",
         explanation := "This significant reduction in coverage could leave you exposed to higher out-of-pocket costs if you face a large liability claim." },
       { id := "change_2", category := "premiums", change_type := "increased",
         title := "Annual Premium",
         baseline_value := "$4,200", renewal_value := "$4,850",
         description := "Annual premium increased by $650",
         impact := "medium",
         explanation := "Despite reduced coverage limits, your premium has increased by 15.5%, which may indicate higher risk factors or market conditions." }],
    premium_comparison :=
      { baseline_premium := some 4200, renewal_premium := some 4850,
        difference := some 650, percentage_change := some 15.5 },
    suggested_actions :=
      [{ priority := "high",
         action := "Contact your broker to discuss the liability limit reduction",
         reason := "The 50% reduction in coverage is significant and may not provide adequate protection" },
       { priority := "medium",
         action := "Shop around for alternative quotes",
         reason := "The premium increase combined with reduced coverage suggests you should explore other options" }],
    educational_insights :=
      [{ topic := "Coverage Limits",
         insight := "Liability limits should be reviewed annually to ensure they match your current risk exposure and asset values." }],
    confidence_score := 0.92 }


/-- The result route itself: it returns the mock result for every
requested job id, with no store lookup and no status gate. -/
def resultRoute (jobId : String) : Except ApiError P5Result :=
  Except.ok (p5MockResult jobId)


/-- The mock job built by the status route for a requested id at query
time `now`. -/
def statusRouteMockJob (jobId : String) (now : Nat) : AnalysisJob :=
  { job_id := jobId, status := "completed",
    created_at := now - 60000, updated_at := now,
    baseline_filename := "current-policy.pdf",
    renewal_filename := "renewal-quote.pdf" }


/-- The status route: 401 when no authenticated user, otherwise the
hard-coded completed mock job for every requested id. -/
def statusRoute (userId : Option String) (jobId : String) (now : Nat) :
    Except ApiError AnalysisJob :=
  match userId with
  | none => Except.error ⟨401, "Unauthorized"⟩
  | some _ => Except.ok (statusRouteMockJob jobId now)


/-! ### Reachability invariants -/

/-- Every pending completion timer points at a stored job that is still
`processing`, and fires exactly `CREATE_DELAY_MS` after that job's
creation time. -/
def GoodTimers (s : SysState) : Prop :=
  ∀ p ∈ s.timers, ∃ job, alookup s.jobs p.1 = some job ∧
    job.status = "processing" ∧ p.2 = job.created_at + CREATE_DELAY_MS


/-- No identifier the counter may still mint is already in the store. -/
def FreshIds (s : SysState) : Prop :=
  ∀ k, s.nextJobId ≤ k → alookup s.jobs (mkId k) = none


/-- Pending timers are registered for pairwise distinct job ids. -/
def TimerKeysNodup (s : SysState) : Prop := (akeys s.timers).Nodup


/-- Every stored job other than the four seeded samples is `processing`
or `completed` and carries no error message. -/
def NonSampleOk (s : SysState) : Prop :=
  ∀ id job, alookup s.jobs id = some job → ¬ id ∈ sampleIds →
    (job.status = "processing" ∨ job.status = "completed") ∧ job.error_message = none


/-- Conjunction of all reachability invariants of the mock system. -/
def Inv (s : SysState) : Prop :=
  GoodTimers s ∧ FreshIds s ∧ TimerKeysNodup s ∧ NonSampleOk s


/-- Step-index trajectory of the analysis page: index 0 at mount, then
one `stepAdvance` per 3-second interval tick. -/
def stepTraj : Nat → Nat
  | 0 => 0
  | k + 1 => stepAdvance (stepTraj k)

/-- Progress values of the `processingSteps` table, in table order. -/
def progressList : List Nat := processingSteps.map ProcessingStep.progress

/-- Progress percentage the page displays after `k` interval ticks
(`processingSteps[currentStep].progress`). -/
def observedProgress (k : Nat) : Nat := progressList.getD (stepTraj k) 0

/-! ### Lemmas and claim theorems -/

theorem digitVal_digitChar (k : Nat) (h : k < 10) : digitVal (Nat.digitChar k) = k := by
  interval_cases k <;> decide


theorem charsVal_append_singleton (l : List Char) (c : Char) :
    charsVal (l ++ [c]) = charsVal l * 10 + digitVal c := by
  unfold charsVal
  rw [List.foldl_append]
  rfl


theorem charsVal_msdDigits (n : Nat) : charsVal (msdDigits n) = n := by
  induction n using Nat.strong_induction_on with
  | _ n ih =>
    rw [msdDigits]
    by_cases h : n < 10
    · simp only [h, dite_true]
      show charsVal ([] ++ [Nat.digitChar n]) = n
      rw [charsVal_append_singleton, digitVal_digitChar n h]
      simp [charsVal]
    · simp only [h, dite_false]
      rw [charsVal_append_singleton,
        ih (n / 10) (Nat.div_lt_self (by omega) (by omega)),
        digitVal_digitChar (n % 10) (Nat.mod_lt n (by omega))]
      omega


theorem toDigitsCore_eq_msdDigits (f : Nat) :
    ∀ (n : Nat) (ds : List Char), n < f →
      Nat.toDigitsCore 10 f n ds = msdDigits n ++ ds := by
  induction f with
  | zero => intro n ds h; omega
  | succ f ih =>
    intro n ds h
    rw [msdDigits]
    by_cases hn : n < 10
    · have hz : n / 10 = 0 := Nat.div_eq_of_lt hn
      simp only [Nat.toDigitsCore, hz, if_true, hn, dite_true]
      rw [Nat.mod_eq_of_lt hn]
      rfl
    · have hz : n / 10 ≠ 0 := by
        intro hc
        exact hn (by omega)
      simp only [Nat.toDigitsCore, hz, if_false, hn, dite_false]
      rw [ih (n / 10) _ (by
        have := Nat.div_lt_self (n := n) (by omega) (by omega : (1 : Nat) < 10)
        omega)]
      simp


theorem toString_nat_data (n : Nat) : (toString n).data = msdDigits n := by
  show (Nat.toDigits 10 n).asString.data = msdDigits n
  have : Nat.toDigits 10 n = msdDigits n ++ [] :=
    toDigitsCore_eq_msdDigits (n + 1) n [] (Nat.lt_succ_self n)
  rw [List.append_nil] at this
  rw [show (Nat.toDigits 10 n).asString.data = Nat.toDigits 10 n from rfl, this]


theorem toString_nat_injective (m n : Nat) (h : toString m = toString n) : m = n := by
  have hm := toString_nat_data m
  have hn := toString_nat_data n
  have hd : msdDigits m = msdDigits n := by rw [← hm, ← hn, h]
  have := congrArg charsVal hd
  rwa [charsVal_msdDigits, charsVal_msdDigits] at this


theorem mkId_injective (m n : Nat) (h : mkId m = mkId n) : m = n := by
  apply toString_nat_injective
  have hd := congrArg String.data h
  simp only [mkId, String.data_append] at hd
  exact String.ext (List.append_cancel_left hd)


theorem mkId_head (n : Nat) : (mkId n).data.head? = some 'm' := by
  show ("mock-job-" ++ toString n).data.head? = some 'm'
  rw [String.data_append]
  rfl


theorem mkId_ne_of_head (n : Nat) (s : String) (hs : s.data.head? = some 'd') :
    mkId n ≠ s := by
  intro h
  have hm := mkId_head n
  rw [h, hs] at hm
  exact absurd hm (by decide)


theorem alookup_aset_same {α : Type} (l : List (String × α)) (id : String) (v : α) :
    alookup (aset l id v) id = some v := by
  induction l with
  | nil => simp [aset, alookup]
  | cons p t ih =>
    obtain ⟨k, x⟩ := p
    by_cases h : k = id
    · simp [aset, alookup, h]
    · simp [aset, alookup, h, ih]


theorem alookup_aset_other {α : Type} (l : List (String × α)) (id id' : String) (v : α)
    (h : id' ≠ id) : alookup (aset l id v) id' = alookup l id' := by
  have hne : ¬ id = id' := fun hc => h hc.symm
  induction l with
  | nil => simp only [aset, alookup, if_neg hne]
  | cons p t ih =>
    obtain ⟨k, x⟩ := p
    by_cases hk : k = id
    · subst hk
      simp only [aset, if_pos rfl, alookup, if_neg hne]
    · simp only [aset, if_neg hk, alookup, ih]


theorem akeys_aset_of_mem {α : Type} (l : List (String × α)) (id : String) (v : α)
    (h : (alookup l id).isSome) : akeys (aset l id v) = akeys l := by
  induction l with
  | nil => simp [alookup] at h
  | cons p t ih =>
    obtain ⟨k, x⟩ := p
    by_cases hk : k = id
    · simp [aset, akeys, hk]
    · simp only [alookup, if_neg hk] at h
      simp [aset, akeys, hk, ih h] at *
      exact ih h


theorem alookup_init (t0 : Nat) (id : String) :
    alookup (initState t0).jobs id =
      if "demo-job-1" = id then some (sampleJob1 t0)
      else if "demo-job-2" = id then some (sampleJob2 t0)
      else if "demo-job-3" = id then some (sampleJob3 t0)
      else if "demo-job-4" = id then some (sampleJob4 t0)
      else none := rfl


theorem inv_init (t0 : Nat) : Inv (initState t0) := by
  refine ⟨?_, ?_, ?_, ?_⟩
  · intro p hp
    simp [initState] at hp
  · intro k _
    rw [alookup_init,
      if_neg (fun hc => mkId_ne_of_head k "demo-job-1" (by decide) hc.symm),
      if_neg (fun hc => mkId_ne_of_head k "demo-job-2" (by decide) hc.symm),
      if_neg (fun hc => mkId_ne_of_head k "demo-job-3" (by decide) hc.symm),
      if_neg (fun hc => mkId_ne_of_head k "demo-job-4" (by decide) hc.symm)]
  · simp [TimerKeysNodup, initState, akeys]
  · intro id job h hns
    rw [alookup_init] at h
    by_cases h1 : "demo-job-1" = id
    · exact absurd (by simp [sampleIds, ← h1]) hns
    by_cases h2 : "demo-job-2" = id
    · exact absurd (by simp [sampleIds, ← h2]) hns
    by_cases h3 : "demo-job-3" = id
    · exact absurd (by simp [sampleIds, ← h3]) hns
    by_cases h4 : "demo-job-4" = id
    · exact absurd (by simp [sampleIds, ← h4]) hns
    rw [if_neg h1, if_neg h2, if_neg h3, if_neg h4] at h
    exact Option.noConfusion h


theorem removeTimer_sublist (l : List (String × Nat)) (id : String) :
    (removeTimer l id).Sublist l := by
  induction l with
  | nil => simp [removeTimer]
  | cons p t ih =>
    obtain ⟨k, v⟩ := p
    by_cases hk : k = id
    · simp only [removeTimer, if_pos hk]
      exact List.sublist_cons_self _ _
    · simp only [removeTimer, if_neg hk]
      exact List.Sublist.cons₂ _ ih


theorem mem_removeTimer (l : List (String × Nat)) (id : String) (p : String × Nat)
    (hnd : (akeys l).Nodup) (hp : p ∈ removeTimer l id) : p ∈ l ∧ p.1 ≠ id := by
  induction l with
  | nil => simp [removeTimer] at hp
  | cons q t ih =>
    obtain ⟨k, v⟩ := q
    simp only [akeys, List.map_cons, List.nodup_cons] at hnd
    obtain ⟨hkn, hnd'⟩ := hnd
    by_cases hk : k = id
    · subst hk
      simp only [removeTimer, if_pos rfl] at hp
      refine ⟨List.mem_cons_of_mem _ hp, ?_⟩
      intro hc
      apply hkn
      rw [← hc]
      exact List.mem_map.mpr ⟨p, hp, rfl⟩
    · simp only [removeTimer, if_neg hk] at hp
      cases hp with
      | head => exact ⟨List.mem_cons_self _ _, hk⟩
      | tail _ hp' =>
        obtain ⟨hm, hne⟩ := ih hnd' hp'
        exact ⟨List.mem_cons_of_mem _ hm, hne⟩


theorem inv_step (s : SysState) (e : Event) (hs : Inv s) : Inv (step s e) := by
  obtain ⟨hT, hF, hN, hS⟩ := hs
  cases e with
  | create b r now =>
    show Inv (createAnalysis s b r now).2
    by_cases hbr : b = "" ∨ r = ""
    · simp only [createAnalysis, if_pos hbr]
      exact ⟨hT, hF, hN, hS⟩
    · simp only [createAnalysis, if_neg hbr]
      have hfresh : alookup s.jobs (mkId s.nextJobId) = none := hF s.nextJobId (le_refl _)
      refine ⟨?_, ?_, ?_, ?_⟩
      · intro p hp
        simp only [List.mem_append, List.mem_singleton] at hp
        cases hp with
        | inl hpo =>
          obtain ⟨job, hj, hst, hdel⟩ := hT p hpo
          have hne : p.1 ≠ mkId s.nextJobId := by
            intro hc; rw [hc, hfresh] at hj; exact Option.noConfusion hj
          exact ⟨job, by rwa [alookup_aset_other _ _ _ _ hne], hst, hdel⟩
        | inr hpn =>
          subst hpn
          exact ⟨newJob (mkId s.nextJobId) b r now, by rw [alookup_aset_same], rfl, rfl⟩
      · intro k hk
        have hk' : s.nextJobId + 1 ≤ k := hk
        have hne : mkId k ≠ mkId s.nextJobId := fun hc => by
          have := mkId_injective _ _ hc; omega
        rw [alookup_aset_other _ _ _ _ hne]
        exact hF k (by omega)
      · show (List.map Prod.fst (s.timers ++
          [(mkId s.nextJobId, now + CREATE_DELAY_MS)])).Nodup
        rw [List.map_append]
        refine List.Nodup.append hN (List.nodup_singleton _) ?_
        intro a ha hb
        simp only [List.map_cons, List.map_nil, List.mem_singleton] at hb
        subst hb
        obtain ⟨p, hp, hp1⟩ := List.mem_map.mp ha
        obtain ⟨job, hj, _, _⟩ := hT p hp
        rw [hp1, hfresh] at hj
        exact Option.noConfusion hj
      · intro id job hj hns
        by_cases hid : id = mkId s.nextJobId
        · subst hid
          rw [alookup_aset_same] at hj
          injection hj with h
          subst h
          exact ⟨Or.inl rfl, rfl⟩
        · rw [alookup_aset_other _ _ _ _ hid] at hj
          exact hS id job hj hns
  | fire j now =>
    show Inv (fireTimer s j now)
    by_cases hj : j ∈ akeys s.timers
    · simp only [fireTimer, if_pos hj]
      obtain ⟨p, hp, hpj⟩ := List.mem_map.mp hj
      obtain ⟨tj, htj, hst, _⟩ := hT p hp
      rw [hpj] at htj
      have hcj : completeJob s.jobs j now =
          aset s.jobs j { tj with status := "completed", updated_at := now } := by
        simp [completeJob, htj]
      refine ⟨?_, ?_, ?_, ?_⟩
      · intro q hq
        obtain ⟨hqmem, hqne⟩ := mem_removeTimer s.timers j q hN hq
        obtain ⟨job, hjq, hsq, hdq⟩ := hT q hqmem
        refine ⟨job, ?_, hsq, hdq⟩
        rw [hcj, alookup_aset_other _ _ _ _ hqne]
        exact hjq
      · intro k hk
        have hne : mkId k ≠ j := by
          intro hc
          have hfr := hF k hk
          rw [hc, htj] at hfr
          exact Option.noConfusion hfr
        rw [hcj, alookup_aset_other _ _ _ _ hne]
        exact hF k hk
      · show (akeys (removeTimer s.timers j)).Nodup
        exact List.Nodup.sublist (List.Sublist.map _ (removeTimer_sublist s.timers j)) hN
      · intro id job hjd hns
        by_cases hid : id = j
        · subst hid
          rw [hcj, alookup_aset_same] at hjd
          injection hjd with h
          subst h
          obtain ⟨_, herr⟩ := hS id tj htj hns
          exact ⟨Or.inr rfl, herr⟩
        · rw [hcj, alookup_aset_other _ _ _ _ hid] at hjd
          exact hS id job hjd hns
    · simp only [fireTimer, if_neg hj]
      exact ⟨hT, hF, hN, hS⟩
  | readStatus jobId => exact ⟨hT, hF, hN, hS⟩
  | readResult jobId => exact ⟨hT, hF, hN, hS⟩
  | readList => exact ⟨hT, hF, hN, hS⟩
  | upInit f now => exact ⟨hT, hF, hN, hS⟩
  | upS3 k =>
    show Inv (s3Upload s k)
    unfold s3Upload
    cases alookup s.uploads k with
    | none => exact ⟨hT, hF, hN, hS⟩
    | some u => exact ⟨hT, hF, hN, hS⟩
  | uiStepTick => exact ⟨hT, hF, hN, hS⟩
  | uiTipTick => exact ⟨hT, hF, hN, hS⟩


theorem reachable_inv (s : SysState) (hs : Reachable s) : Inv s := by
  induction hs with
  | init t0 => exact inv_init t0
  | next e _ ih => exact inv_step _ e ih


/-! ### Claims -/

/-- C2: for every job whose state is terminal (`completed` or `failed`)
in a reachable mock-system state, no system step changes that job's
stored record at all — in particular its state, its progress-bearing
fields, and its error detail are frozen: every step either leaves the
terminal job untouched or targets a non-terminal job. -/
theorem terminal_jobs_frozen (s : SysState) (e : Event) (hs : Reachable s)
    (id : String) (job : AnalysisJob)
    (hlook : alookup s.jobs id = some job)
    (hterm : job.status = "completed" ∨ job.status = "failed") :
    alookup (step s e).jobs id = some job := by
  obtain ⟨hT, hF, _, _⟩ := reachable_inv s hs
  cases e with
  | create b r now =>
    show alookup (createAnalysis s b r now).2.jobs id = some job
    by_cases hbr : b = "" ∨ r = ""
    · simp only [createAnalysis, if_pos hbr]
      exact hlook
    · simp only [createAnalysis, if_neg hbr]
      have hne : id ≠ mkId s.nextJobId := by
        intro hc
        rw [hc, hF s.nextJobId (le_refl _)] at hlook
        exact Option.noConfusion hlook
      rw [alookup_aset_other _ _ _ _ hne]
      exact hlook
  | fire j now =>
    show alookup (fireTimer s j now).jobs id = some job
    by_cases hj : j ∈ akeys s.timers
    · simp only [fireTimer, if_pos hj]
      obtain ⟨p, hp, hpj⟩ := List.mem_map.mp hj
      obtain ⟨tj, htj, hst, _⟩ := hT p hp
      rw [hpj] at htj
      have hcj : completeJob s.jobs j now =
          aset s.jobs j { tj with status := "completed", updated_at := now } := by
        simp [completeJob, htj]
      have hne : id ≠ j := by
        intro hc
        subst hc
        rw [htj] at hlook
        injection hlook with h
        subst h
        rcases hterm with h | h <;> rw [hst] at h <;> exact absurd h (by decide)
      rw [hcj, alookup_aset_other _ _ _ _ hne]
      exact hlook
    · simp only [fireTimer, if_neg hj]
      exact hlook
  | readStatus jobId => exact hlook
  | readResult jobId => exact hlook
  | readList => exact hlook
  | upInit f now => exact hlook
  | upS3 k =>
    show alookup (s3Upload s k).jobs id = some job
    unfold s3Upload
    cases alookup s.uploads k with
    | none => exact hlook
    | some u => exact hlook
  | uiStepTick => exact hlook
  | uiTipTick => exact hlook


/-- Witness for C2: in the seeded initial state the completed sample job
`demo-job-1` survives a timer-fire step unchanged. -/
theorem terminal_jobs_frozen_witness :
    alookup (step (initState 7) (Event.fire "demo-job-1" 99)).jobs "demo-job-1" =
      some (sampleJob1 7) :=
  terminal_jobs_frozen (initState 7) (Event.fire "demo-job-1" 99) (Reachable.init 7)
    "demo-job-1" (sampleJob1 7) rfl (Or.inl rfl)


/-- C9: every job created through the public create-analysis operation
is stored with initial state `processing` and no error message, its
completion timer is registered to fire a fixed 15000 ms (15 s) after
creation, the only transition a step ever applies to a stored
API-created job is the overwrite to `completed` performed by that timer,
and no API-created job is ever `failed` or acquires an error message. -/
theorem created_job_lifecycle (s : SysState) (hs : Reachable s) :
    (∀ b r now, ¬ (b = "" ∨ r = "") →
      alookup (createAnalysis s b r now).2.jobs (mkId s.nextJobId) =
          some (newJob (mkId s.nextJobId) b r now) ∧
        (newJob (mkId s.nextJobId) b r now).status = "processing" ∧
        (newJob (mkId s.nextJobId) b r now).error_message = none ∧
        (createAnalysis s b r now).2.timers =
          s.timers ++ [(mkId s.nextJobId, now + 15000)]) ∧
    (∀ id job, alookup s.jobs id = some job → ¬ id ∈ sampleIds →
      (job.status = "processing" ∨ job.status = "completed") ∧
        job.error_message = none) ∧
    (∀ e id job job', ¬ id ∈ sampleIds →
      alookup s.jobs id = some job →
      alookup (step s e).jobs id = some job' →
      job' = job ∨ (job.status = "processing" ∧
        ∃ n, job' = { job with status := "completed", updated_at := n })) := by
  obtain ⟨hT, hF, hN, hS⟩ := reachable_inv s hs
  refine ⟨?_, hS, ?_⟩
  · intro b r now hbr
    simp only [createAnalysis, if_neg hbr]
    exact ⟨alookup_aset_same _ _ _, rfl, rfl, rfl⟩
  · intro e id job job' hns hlook hlook'
    cases e with
    | create b r now =>
      by_cases hbr : b = "" ∨ r = ""
      · simp only [step, createAnalysis, if_pos hbr] at hlook'
        rw [hlook] at hlook'
        injection hlook' with h
        exact Or.inl h.symm
      · simp only [step, createAnalysis, if_neg hbr] at hlook'
        have hne : id ≠ mkId s.nextJobId := by
          intro hc
          rw [hc, hF s.nextJobId (le_refl _)] at hlook
          exact Option.noConfusion hlook
        rw [alookup_aset_other _ _ _ _ hne, hlook] at hlook'
        injection hlook' with h
        exact Or.inl h.symm
    | fire j now =>
      simp only [step] at hlook'
      by_cases hj : j ∈ akeys s.timers
      · simp only [fireTimer, if_pos hj] at hlook'
        obtain ⟨p, hp, hpj⟩ := List.mem_map.mp hj
        obtain ⟨tj, htj, hst, _⟩ := hT p hp
        rw [hpj] at htj
        have hcj : completeJob s.jobs j now =
            aset s.jobs j { tj with status := "completed", updated_at := now } := by
          simp [completeJob, htj]
        rw [hcj] at hlook'
        by_cases hid : id = j
        · subst hid
          rw [alookup_aset_same] at hlook'
          rw [htj] at hlook
          injection hlook with h
          subst h
          injection hlook' with h'
          exact Or.inr ⟨hst, now, h'.symm⟩
        · rw [alookup_aset_other _ _ _ _ hid, hlook] at hlook'
          injection hlook' with h
          exact Or.inl h.symm
      · simp only [fireTimer, if_neg hj] at hlook'
        rw [hlook] at hlook'
        injection hlook' with h
        exact Or.inl h.symm
    | readStatus jobId =>
      rw [show (step s (Event.readStatus jobId)).jobs = s.jobs from rfl, hlook] at hlook'
      injection hlook' with h
      exact Or.inl h.symm
    | readResult jobId =>
      rw [show (step s (Event.readResult jobId)).jobs = s.jobs from rfl, hlook] at hlook'
      injection hlook' with h
      exact Or.inl h.symm
    | readList =>
      rw [show (step s Event.readList).jobs = s.jobs from rfl, hlook] at hlook'
      injection hlook' with h
      exact Or.inl h.symm
    | upInit f now =>
      rw [show (step s (Event.upInit f now)).jobs = s.jobs from rfl, hlook] at hlook'
      injection hlook' with h
      exact Or.inl h.symm
    | upS3 k =>
      simp only [step] at hlook'
      unfold s3Upload at hlook'
      cases halo : alookup s.uploads k with
      | none =>
        rw [halo] at hlook'
        have h2 : alookup s.jobs id = some job' := hlook'
        rw [hlook] at h2
        injection h2 with h
        exact Or.inl h.symm
      | some u =>
        rw [halo] at hlook'
        have h2 : alookup s.jobs id = some job' := hlook'
        rw [hlook] at h2
        injection h2 with h
        exact Or.inl h.symm
    | uiStepTick =>
      rw [show (step s Event.uiStepTick).jobs = s.jobs from rfl, hlook] at hlook'
      injection hlook' with h
      exact Or.inl h.symm
    | uiTipTick =>
      rw [show (step s Event.uiTipTick).jobs = s.jobs from rfl, hlook] at hlook'
      injection hlook' with h
      exact Or.inl h.symm


/-- Witness for C9: creating a job in the seeded initial state stores it
as `processing` with no error and a timer 15000 ms out. -/
theorem created_job_lifecycle_witness :
    alookup (createAnalysis (initState 3) "u/a.pdf" "u/b.pdf" 50).2.jobs
        (mkId 5) = some (newJob (mkId 5) "u/a.pdf" "u/b.pdf" 50) ∧
      (newJob (mkId 5) "u/a.pdf" "u/b.pdf" 50).status = "processing" ∧
      (newJob (mkId 5) "u/a.pdf" "u/b.pdf" 50).error_message = none ∧
      (createAnalysis (initState 3) "u/a.pdf" "u/b.pdf" 50).2.timers =
        (initState 3).timers ++ [(mkId 5, 50 + 15000)] :=
  (created_job_lifecycle (initState 3) (Reachable.init 3)).1
    "u/a.pdf" "u/b.pdf" 50 (by simp)


/-- C10: a tick of the page's step or tip interval rewrites only the
corresponding local component index and is the identity on the job
store (and on the timers, the id counter and the uploads), so stepping
the animation changes no stored job's state, progress fields or
message. -/
theorem ui_animation_frame (s : SysState) :
    step s Event.uiStepTick =
      { s with ui := { s.ui with currentStep := stepAdvance s.ui.currentStep } } ∧
    step s Event.uiTipTick =
      { s with ui := { s.ui with currentTip := tipAdvance s.ui.currentTip } } ∧
    (step s Event.uiStepTick).jobs = s.jobs ∧
    (step s Event.uiTipTick).jobs = s.jobs ∧
    (∀ id, alookup (step s Event.uiStepTick).jobs id = alookup s.jobs id) ∧
    (∀ id, alookup (step s Event.uiTipTick).jobs id = alookup s.jobs id) :=
  ⟨rfl, rfl, rfl, rfl, fun _ => rfl, fun _ => rfl⟩

theorem stepAdvance_eq (n : Nat) : stepAdvance n = if 5 ≤ n then n else n + 1 := rfl

theorem stepTraj_eq (k : Nat) : stepTraj k = min k 5 := by
  induction k with
  | zero => simp [stepTraj]
  | succ k ih =>
    show stepAdvance (stepTraj k) = min (k + 1) 5
    rw [ih, stepAdvance_eq]
    by_cases h : 5 ≤ min k 5
    · rw [if_pos h]; omega
    · rw [if_neg h]; omega

/-- C7: the page's step table carries exactly the progress sequence
15, 35, 50, 75, 90, 100; the current-step index never decreases over
ticks (it equals min k 5 after k ticks); the displayed progress is
monotone in the number of ticks and bounded by 100; and the mock polled
status fixture is likewise non-decreasing and bounded by 100. -/
theorem progress_monotone :
    processingSteps.map ProcessingStep.progress = [15, 35, 50, 75, 90, 100] ∧
    (∀ k, stepTraj k = min k 5) ∧
    (∀ k l, k ≤ l → stepTraj k ≤ stepTraj l) ∧
    (∀ k l, k ≤ l → observedProgress k ≤ observedProgress l) ∧
    (∀ k, observedProgress k ≤ 100) ∧
    List.Chain' (fun a b => a ≤ b) (mockJobStatuses.map JobStatusRec.progress) ∧
    (∀ st ∈ mockJobStatuses, st.progress ≤ 100) := by
  have hbound : ∀ i < 6, ∀ j < 6, i ≤ j →
      progressList.getD i 0 ≤ progressList.getD j 0 := by decide
  have h100 : ∀ i < 6, progressList.getD i 0 ≤ 100 := by decide
  refine ⟨rfl, stepTraj_eq, ?_, ?_, ?_,
    by show List.Chain' (fun a b => a ≤ b) [25, 50, 75, 100]
       norm_num [List.chain'_cons, List.chain'_singleton],
    by decide⟩
  · intro k l hkl
    rw [stepTraj_eq, stepTraj_eq]
    omega
  · intro k l hkl
    unfold observedProgress
    rw [stepTraj_eq, stepTraj_eq]
    exact hbound _ (by omega) _ (by omega) (by omega)
  · intro k
    unfold observedProgress
    rw [stepTraj_eq]
    exact h100 _ (by omega)

/-- Witness for C7: concrete tick counts, displayed progress moves from
50 at two ticks to 100 at five and stays within the bound. -/
theorem progress_monotone_witness :
    observedProgress 2 ≤ observedProgress 5 ∧ observedProgress 7 ≤ 100 :=
  ⟨progress_monotone.2.2.2.1 2 5 (by decide), progress_monotone.2.2.2.2.1 7⟩

theorem mem_insertDesc (j x : AnalysisJob) (l : List AnalysisJob) :
    x ∈ insertDesc j l ↔ x = j ∨ x ∈ l := by
  induction l with
  | nil => simp [insertDesc]
  | cons h t ih =>
    by_cases hc : j.created_at ≤ h.created_at
    · simp only [insertDesc, if_pos hc, List.mem_cons, ih]
      tauto
    · simp only [insertDesc, if_neg hc, List.mem_cons]

theorem insertDesc_perm (j : AnalysisJob) (l : List AnalysisJob) :
    (insertDesc j l).Perm (j :: l) := by
  induction l with
  | nil => simp [insertDesc]
  | cons h t ih =>
    by_cases hc : j.created_at ≤ h.created_at
    · simp only [insertDesc, if_pos hc]
      exact (ih.cons h).trans (List.Perm.swap j h t)
    · simp only [insertDesc, if_neg hc]
      exact List.Perm.refl _

theorem sortDesc_perm (l : List AnalysisJob) : (sortDesc l).Perm l := by
  induction l with
  | nil => simp [sortDesc]
  | cons h t ih => exact (insertDesc_perm h (sortDesc t)).trans (ih.cons h)

theorem pairwise_insertDesc (j : AnalysisJob) (l : List AnalysisJob)
    (h : l.Pairwise (fun a b => b.created_at ≤ a.created_at)) :
    (insertDesc j l).Pairwise (fun a b => b.created_at ≤ a.created_at) := by
  induction l with
  | nil => simp [insertDesc]
  | cons hd t ih =>
    rw [List.pairwise_cons] at h
    obtain ⟨hhd, ht⟩ := h
    by_cases hc : j.created_at ≤ hd.created_at
    · simp only [insertDesc, if_pos hc]
      rw [List.pairwise_cons]
      refine ⟨?_, ih ht⟩
      intro x hx
      rcases (mem_insertDesc j x t).mp hx with rfl | hx
      · exact hc
      · exact hhd x hx
    · simp only [insertDesc, if_neg hc]
      rw [List.pairwise_cons]
      refine ⟨?_, List.pairwise_cons.mpr ⟨hhd, ht⟩⟩
      intro x hx
      rcases List.mem_cons.mp hx with rfl | hx
      · omega
      · have := hhd x hx
        omega

theorem pairwise_sortDesc (l : List AnalysisJob) :
    (sortDesc l).Pairwise (fun a b => b.created_at ≤ a.created_at) := by
  induction l with
  | nil => simp [sortDesc]
  | cons h t ih => exact pairwise_insertDesc h (sortDesc t) ih

/-- C8: the list-jobs handler returns exactly the stored jobs (a
permutation of the store's values, hence containing every caller job)
ordered by creation time descending — every adjacent pair is
non-increasing in created_at — and it mutates nothing: the read-list
step is the identity on the state. -/
theorem list_jobs_sorted_readonly (s : SysState) :
    (listAnalyses s).Perm (s.jobs.map Prod.snd) ∧
    (listAnalyses s).Pairwise (fun a b => b.created_at ≤ a.created_at) ∧
    List.Chain' (fun a b => b.created_at ≤ a.created_at) (listAnalyses s) ∧
    step s Event.readList = s :=
  ⟨sortDesc_perm _, pairwise_sortDesc _,
    List.Pairwise.chain' (pairwise_sortDesc _), rfl⟩

/-- C1 counterexample: the stub result route answers success for a job
id that is stored nowhere (shown against the seeded store), with no
NotFound and no readiness gate — so the get-result operation, taken at
this route, returns a full result for a job id with no stored job
instead of failing with NotFound. -/
theorem result_route_ignores_store :
    alookup (initState 0).jobs "ghost-job" = none ∧
    resultRoute "ghost-job" = Except.ok (p5MockResult "ghost-job") :=
  ⟨rfl, rfl⟩

/-- C1 amended: for the mock API handler backed by the job store, the
full result is returned exactly when the stored job is completed; an
existing non-completed job yields the distinct 400 not-ready error and
a missing job yields 404 NotFound. -/
theorem get_result_characterization (s : SysState) (jobId : String) :
    (alookup s.jobs jobId = none →
      getResult s jobId = Except.error ⟨404, "Analysis job not found"⟩) ∧
    (∀ job, alookup s.jobs jobId = some job → job.status ≠ "completed" →
      getResult s jobId = Except.error ⟨400, "Analysis is not yet completed"⟩) ∧
    (∀ job, alookup s.jobs jobId = some job → job.status = "completed" →
      getResult s jobId = Except.ok { mockAnalysisResult with job_id := jobId }) ∧
    ((∃ r, getResult s jobId = Except.ok r) ↔
      ∃ job, alookup s.jobs jobId = some job ∧ job.status = "completed") ∧
    (400 : Nat) ≠ 404 := by
  refine ⟨?_, ?_, ?_, ?_, by decide⟩
  · intro h
    simp only [getResult, h]
  · intro job h hne
    simp only [getResult, h, if_neg hne]
  · intro job h hc
    simp only [getResult, h, if_pos hc]
  · constructor
    · rintro ⟨r, hr⟩
      cases halo : alookup s.jobs jobId with
      | none =>
        simp only [getResult, halo] at hr
        exact Except.noConfusion hr
      | some job =>
        simp only [getResult, halo] at hr
        by_cases hc : job.status = "completed"
        · exact ⟨job, rfl, hc⟩
        · rw [if_neg hc] at hr
          exact Except.noConfusion hr
    · rintro ⟨job, halo, hc⟩
      refine ⟨{ mockAnalysisResult with job_id := jobId }, ?_⟩
      simp only [getResult, halo, if_pos hc]

/-- Witness for C1: in the seeded store an unknown id yields 404, the
processing sample job yields the distinct 400 not-ready error, and the
completed sample job yields the full result. -/
theorem get_result_characterization_witness :
    getResult (initState 11) "ghost-job" =
        Except.error ⟨404, "Analysis job not found"⟩ ∧
      getResult (initState 11) "demo-job-3" =
        Except.error ⟨400, "Analysis is not yet completed"⟩ ∧
      getResult (initState 11) "demo-job-1" =
        Except.ok { mockAnalysisResult with job_id := "demo-job-1" } :=
  ⟨(get_result_characterization (initState 11) "ghost-job").1 rfl,
   (get_result_characterization (initState 11) "demo-job-3").2.1
     (sampleJob3 11) rfl (by decide),
   (get_result_characterization (initState 11) "demo-job-1").2.2.1
     (sampleJob1 11) rfl rfl⟩

/-- C3 counterexample: the stub result route returns, for any job id, a
result whose reported total_changes (8) differs from the length of its
changes list (2). -/
theorem p5_summary_mismatch :
    resultRoute "job-1" = Except.ok (p5MockResult "job-1") ∧
    (p5MockResult "job-1").summary.total_changes = 8 ∧
    (p5MockResult "job-1").changes.length = 2 ∧
    (p5MockResult "job-1").summary.total_changes ≠
      (p5MockResult "job-1").changes.length :=
  ⟨rfl, rfl, rfl, by decide⟩

/-- C3 amended: every result the mock API result handler returns for a
completed job satisfies total_changes equal to the number of changes
and category counts summing to total_changes; the stub result route
violates this. -/
theorem result_summary_consistent (s : SysState) (jobId : String)
    (r : AnalysisResult) (h : getResult s jobId = Except.ok r) :
    r.summary.total_changes = r.changes.length ∧
    r.summary.change_categories.sum = r.summary.total_changes := by
  cases halo : alookup s.jobs jobId with
  | none =>
    simp only [getResult, halo] at h
    exact Except.noConfusion h
  | some job =>
    simp only [getResult, halo] at h
    by_cases hc : job.status = "completed"
    · rw [if_pos hc] at h
      injection h with h
      subst h
      exact ⟨rfl, rfl⟩
    · rw [if_neg hc] at h
      exact Except.noConfusion h

/-- Witness for C3: the result returned for the completed sample job has
4 changes, total_changes 4, and category counts summing to 4. -/
theorem result_summary_consistent_witness :
    ({ mockAnalysisResult with job_id := "demo-job-1" }).summary.total_changes =
        ({ mockAnalysisResult with job_id := "demo-job-1" }).changes.length ∧
      ({ mockAnalysisResult with
          job_id := "demo-job-1" }).summary.change_categories.sum =
        ({ mockAnalysisResult with job_id := "demo-job-1" }).summary.total_changes :=
  result_summary_consistent (initState 0) "demo-job-1"
    { mockAnalysisResult with job_id := "demo-job-1" } rfl

/-- C4 counterexample: the stub result route returns changes whose
categories are `coverage_limits` and `premiums`, neither of which is a
member of the fixed category enumeration. -/
theorem p5_category_outside_enum :
    resultRoute "job-7" = Except.ok (p5MockResult "job-7") ∧
    (p5MockResult "job-7").changes.map P5Change.category =
      ["coverage_limits", "premiums"] ∧
    ¬ "coverage_limits" ∈ validCategories ∧
    ¬ "premiums" ∈ validCategories :=
  ⟨rfl, rfl, by decide, by decide⟩

/-- C4 amended: every change in any result the mock API result handler
returns has its category in the fixed category enumeration and its
change_type in the fixed change-type enumeration; the stub result route
violates this. -/
theorem result_changes_in_enums (s : SysState) (jobId : String)
    (r : AnalysisResult) (h : getResult s jobId = Except.ok r) :
    ∀ c ∈ r.changes, c.category ∈ validCategories ∧
      c.change_type ∈ validChangeTypes := by
  cases halo : alookup s.jobs jobId with
  | none =>
    simp only [getResult, halo] at h
    exact Except.noConfusion h
  | some job =>
    simp only [getResult, halo] at h
    by_cases hc : job.status = "completed"
    · rw [if_pos hc] at h
      injection h with h
      subst h
      show ∀ c ∈ mockPolicyChanges, _
      decide
    · rw [if_neg hc] at h
      exact Except.noConfusion h

/-- Witness for C4: the first change of the returned mock result has a
category and change_type inside the fixed enumerations. -/
theorem result_changes_in_enums_witness :
    (mockPolicyChanges.get ⟨0, by decide⟩).category ∈ validCategories ∧
      (mockPolicyChanges.get ⟨0, by decide⟩).change_type ∈ validChangeTypes :=
  result_changes_in_enums (initState 0) "demo-job-1"
    { mockAnalysisResult with job_id := "demo-job-1" } rfl
    (mockPolicyChanges.get ⟨0, by decide⟩) (List.mem_cons_self _ _)

/-- C5 counterexample: a create call with two non-empty keys returns
and stores a job in state processing, never pending — pending is not
even a value of the job status union. -/
theorem create_returns_processing_not_pending :
    (createAnalysis (initState 0) "uploads/u/1/a.pdf" "uploads/u/1/b.pdf" 9).1 =
      Except.ok (newJob (mkId 5) "uploads/u/1/a.pdf" "uploads/u/1/b.pdf" 9) ∧
    (newJob (mkId 5) "uploads/u/1/a.pdf" "uploads/u/1/b.pdf" 9).status =
      "processing" ∧
    (newJob (mkId 5) "uploads/u/1/a.pdf" "uploads/u/1/b.pdf" 9).status ≠
      "pending" ∧
    ¬ "pending" ∈ validJobStatuses :=
  ⟨rfl, rfl, by decide, by decide⟩

/-- C5 amended: with both keys non-empty the create call returns the
fresh job in state processing and stores it; with either key empty it
fails with the 422 validation error and the state — job store included —
is entirely unchanged. -/
theorem create_validation (s : SysState) (b r : String) (now : Nat) :
    (¬ (b = "" ∨ r = "") →
      (createAnalysis s b r now).1 =
          Except.ok (newJob (mkId s.nextJobId) b r now) ∧
        (newJob (mkId s.nextJobId) b r now).status = "processing" ∧
        alookup (createAnalysis s b r now).2.jobs (mkId s.nextJobId) =
          some (newJob (mkId s.nextJobId) b r now)) ∧
    ((b = "" ∨ r = "") →
      (createAnalysis s b r now).1 =
          Except.error ⟨422, "Both baseline_s3_key and renewal_s3_key are required"⟩ ∧
        (createAnalysis s b r now).2 = s) := by
  constructor
  · intro hbr
    unfold createAnalysis
    rw [if_neg hbr]
    exact ⟨rfl, rfl, alookup_aset_same _ _ _⟩
  · intro hbr
    unfold createAnalysis
    rw [if_pos hbr]
    exact ⟨rfl, rfl⟩

/-- Witness for C5: a concrete valid create in the seeded state stores
the processing job; a create with an empty baseline key fails 422 and
leaves the state unchanged. -/
theorem create_validation_witness :
    (createAnalysis (initState 2) "k/a.pdf" "k/b.pdf" 4).1 =
        Except.ok (newJob (mkId 5) "k/a.pdf" "k/b.pdf" 4) ∧
      (newJob (mkId 5) "k/a.pdf" "k/b.pdf" 4).status = "processing" ∧
      alookup (createAnalysis (initState 2) "k/a.pdf" "k/b.pdf" 4).2.jobs (mkId 5) =
        some (newJob (mkId 5) "k/a.pdf" "k/b.pdf" 4) ∧
      (createAnalysis (initState 2) "" "k/b.pdf" 4).1 =
        Except.error ⟨422, "Both baseline_s3_key and renewal_s3_key are required"⟩ ∧
      (createAnalysis (initState 2) "" "k/b.pdf" 4).2 = initState 2 := by
  have h1 := (create_validation (initState 2) "k/a.pdf" "k/b.pdf" 4).1 (by decide)
  have h2 := (create_validation (initState 2) "" "k/b.pdf" 4).2 (by decide)
  exact ⟨h1.1, h1.2.1, h1.2.2, h2.1, h2.2⟩

/-- C6 counterexample: the stub status route answers a successful mock
completed job for a job id that is stored nowhere (shown against the
seeded store), so a status query for a nonexistent job does not fail
with NotFound there; its only failure, 401 for a missing user, is not
NotFound either. -/
theorem status_route_ignores_store :
    alookup (initState 0).jobs "ghost-job" = none ∧
    statusRoute (some "user-b") "ghost-job" 70000 =
      Except.ok (statusRouteMockJob "ghost-job" 70000) ∧
    statusRoute none "ghost-job" 70000 = Except.error ⟨401, "Unauthorized"⟩ ∧
    (401 : Nat) ≠ 404 :=
  ⟨rfl, rfl, rfl, by decide⟩

/-- C6 amended: the mock API status handler fails with 404 NotFound
exactly when the job id is absent from the store and returns the stored
job otherwise; it takes no owner and applies no ownership scoping, so
owner-based NotFound never occurs. -/
theorem get_status_characterization (s : SysState) (jobId : String) :
    (getStatus s jobId = Except.error ⟨404, "Analysis job not found"⟩ ↔
      alookup s.jobs jobId = none) ∧
    (∀ job, alookup s.jobs jobId = some job →
      getStatus s jobId = Except.ok job) := by
  constructor
  · constructor
    · intro h
      cases halo : alookup s.jobs jobId with
      | none => rfl
      | some job =>
        simp only [getStatus, halo] at h
        exact Except.noConfusion h
    · intro h
      simp only [getStatus, h]
  · intro job h
    simp only [getStatus, h]

/-- Witness for C6: in the seeded store a status query for an unknown id
yields 404 and for a stored sample job yields that job. -/
theorem get_status_characterization_witness :
    getStatus (initState 13) "ghost-job" =
        Except.error ⟨404, "Analysis job not found"⟩ ∧
      getStatus (initState 13) "demo-job-2" = Except.ok (sampleJob2 13) :=
  ⟨((get_status_characterization (initState 13) "ghost-job").1).mpr rfl,
   (get_status_characterization (initState 13) "demo-job-2").2 (sampleJob2 13) rfl⟩

end Prisere
